import Mathlib

/-!
# Verification of the buddy CLI dispatcher (src/rust-buddy/src/main.rs)

A shallow embedding of the program's core logic:

* directories and files are identified by their component lists (`List String`),
  the root directory `/` being `[]`; a filesystem state is the list of existing
  paths;
* the ascend search loop of `create_new_project` becomes `ascendSearch`;
* the walkdir-based descend search of `find_project_path` becomes
  `findProjectPath`, operating on the deterministic walk order as a list of
  entries;
* process spawning, printing and exiting are modelled by returning a result
  record describing the spawned command, the printed lines and the outcome;
  the environment supplies the child's exit status
  (`Option (Option Int)`: `none` is a spawn error, `some st` is the child's
  termination status, where `st = none` means signal termination).
-/

/-- Boolean test that `p` is a prefix of `l` (element-wise `==`). -/
def isPre [BEq α] : List α → List α → Bool
  | [], _ => true
  | _ :: _, [] => false
  | a :: l, b :: m => a == b && isPre l m

/-- Boolean test that `pat` occurs as a contiguous sublist of `l`;
this models Rust's `str::contains` substring search on character lists. -/
def hasSub [BEq α] (pat : List α) : List α → Bool
  | [] => pat.isEmpty
  | a :: l => isPre pat (a :: l) || hasSub pat l

/-- Rust `s.contains(pat)`: substring containment on strings. -/
def strContains (s pat : String) : Bool :=
  hasSub pat.data s.data

/-- The project marker, relative path `storage/framework/core/buddy`
(`current_dir.join("storage/framework/core/buddy")` in the source). -/
def markerRel : List String := ["storage", "framework", "core", "buddy"]

/-- `Path::exists` against a filesystem state given as the list of
existing paths (each a component list; `[]` is the root `/`). -/
def pathExists (fs : List (List String)) (p : List String) : Bool :=
  fs.contains p

/-- Worker for the ascend loop of `create_new_project`, lines 130-140:
`while current_dir.as_os_str() != "/" { check marker; pop }`.
The directory is passed with its components reversed so that `pop`
(dropping the last component) is structural recursion. The second
result component counts the loop iterations performed. -/
def ascendRunAux (fs : List (List String)) : List String → Option (List String) × Nat
  | [] => (none, 0)
  | c :: rest =>
    if pathExists fs ((c :: rest).reverse ++ markerRel) then (some (c :: rest).reverse, 1)
    else ((ascendRunAux fs rest).1, (ascendRunAux fs rest).2 + 1)

/-- The ascend loop of `create_new_project` on a directory given by its
components (root-first), returning the found directory (if any) and the
number of loop iterations. -/
def ascendRun (fs : List (List String)) (d : List String) : Option (List String) × Nat :=
  ascendRunAux fs d.reverse

/-- AscendSearch: the directory at which the ascend loop stops with
`found = true`, or `none` when the loop exits without a match. -/
def ascendSearch (fs : List (List String)) (d : List String) : Option (List String) :=
  (ascendRun fs d).1

/-- Number of iterations the ascend loop performs. -/
def ascendSteps (fs : List (List String)) (d : List String) : Nat :=
  (ascendRun fs d).2

/-- Worker for `ancestors` on the reversed component list. -/
def ancestorsAux : List String → List (List String)
  | [] => [[]]
  | c :: rest => (c :: rest).reverse :: ancestorsAux rest

/-- All ancestors of a directory, nearest first: the directory itself,
its parent, ..., down to the root `[]`. -/
def ancestors (d : List String) : List (List String) :=
  ancestorsAux d.reverse

/-- A command handed to `Command::new(program).args(args).status()`. -/
structure SpawnedCmd where
  program : String
  args : List String
deriving DecidableEq, Repr

/-- How a handler leaves the process: returning `Ok(())` (exit status 0),
calling `exit(code)`, or propagating an `anyhow` error (nonzero exit). -/
inductive Outcome where
  | ok : Outcome
  | exited : Nat → Outcome
  | err : String → Outcome
deriving DecidableEq, Repr

/-- Environment of a `create_new_project` / `proxy_command` call:
current working directory, filesystem state, forwarded arguments
(`env::args().skip(1)`), and the result the OS would give for a spawn
(`none`: spawn error; `some st`: child ran and terminated with status
`st`, where `st = none` is signal termination without an exit code). -/
structure ProcEnv where
  cwd : List String
  fs : List (List String)
  argv : List String
  spawnStatus : Option (Option Int)

/-- Result of `create_new_project`: lines printed, command spawned (if any),
and the process outcome. -/
structure CnpResult where
  printed : List String
  spawned : Option SpawnedCmd
  outcome : Outcome
deriving DecidableEq, Repr

/-- Rust's `{:?}` Debug rendering of `status.code() : Option<i32>`. -/
def statusDebug : Option Int → String
  | none => "None"
  | some n => "Some(" ++ toString n ++ ")"

/-- The failure notice printed when a child exits unsuccessfully
(`println!("Command failed with exit code: {:?}", status.code())`). -/
def failNotice (st : Option Int) : String :=
  "Command failed with exit code: " ++ statusDebug st

/-- Shared child-running logic (`Command::new(..).status()` followed by the
`if !status.success()` report); `errMsg` is the `context` message attached
when the spawn itself fails. `status.success()` holds exactly when the exit
code is `Some(0)`. -/
def runChild (env : ProcEnv) (cmd : SpawnedCmd) (errMsg : String) : CnpResult :=
  match env.spawnStatus with
  | none => { printed := [], spawned := some cmd, outcome := .err errMsg }
  | some st =>
    if st == some 0 then { printed := [], spawned := some cmd, outcome := .ok }
    else { printed := [failNotice st], spawned := some cmd, outcome := .ok }

/-- `create_new_project` (lines 111-160). The relative paths `"buddy"` and
`"./buddy"` both resolve against the current working directory, so the
existence check is on `cwd ++ ["buddy"]`. The `name` parameter is the
`_name` argument of the source, bound but never read. -/
def createNewProject (env : ProcEnv) (_name : String) : CnpResult :=
  if pathExists env.fs (env.cwd ++ ["buddy"]) then
    runChild env { program := "buddy", args := env.argv }
      "Failed to execute buddy command"
  else
    match ascendSearch env.fs env.cwd with
    | some _ =>
      runChild env { program := "./buddy", args := "new" :: env.argv }
        "Failed to execute ./buddy command"
    | none =>
      { printed := ["No stacks project found. Do you want to create a new stacks project?"]
        spawned := none
        outcome := .exited 1 }

/-- Result of `proxy_command`: printed lines, spawned command, and the
`Result<bool>` value (`.error` when the spawn fails). -/
structure ProxyResult where
  printed : List String
  spawned : Option SpawnedCmd
  result : Except String Bool
deriving Repr

/-- `proxy_command` (lines 196-212). -/
def proxyCommand (env : ProcEnv) : ProxyResult :=
  if pathExists env.fs (env.cwd ++ ["buddy"]) then
    match env.spawnStatus with
    | none =>
      { printed := []
        spawned := some { program := "./buddy", args := env.argv }
        result := .error "Failed to execute ./buddy command" }
    | some st =>
      if st == some 0 then
        { printed := []
          spawned := some { program := "./buddy", args := env.argv }
          result := .ok true }
      else
        { printed := [failNotice st]
          spawned := some { program := "./buddy", args := env.argv }
          result := .ok true }
  else
    { printed := [], spawned := none, result := .ok false }

/-- A filesystem entry produced by the `WalkDir` traversal, in walk order. -/
structure WalkEntry where
  path : String
  isDir : Bool
deriving DecidableEq, Repr

/-- `format!("\x7b\x7d/storage/framework/core/buddy/", target)`. -/
def targetPath (target : String) : String :=
  target ++ "/storage/framework/core/buddy/"

/-- The per-entry test of `find_project_path`: directory entries whose
full path contains the target substring. -/
def entryMatches (target : String) (e : WalkEntry) : Bool :=
  e.isDir && strContains e.path (targetPath target)

/-- `find_project_path` (lines 175-194): scan the walk entries in order
and return the path of the first directory entry whose full path contains
`targetPath target`. -/
def findProjectPath (entries : List WalkEntry) (target : String) : Option String :=
  (entries.find? (entryMatches target)).map WalkEntry.path

/-- Whether the project marker `storage/framework/core/buddy` exists as a
directory under `p`, judged against the walked filesystem. -/
def markerUnder (entries : List WalkEntry) (p : String) : Bool :=
  entries.any (fun e => e.isDir && e.path == p ++ "/storage/framework/core/buddy")

/-- Resolution of a relative path against the current working directory
(what the OS does with `Path::new("buddy")` and `Command::new("./buddy")`). -/
def resolveRel (cwd : List String) (comps : List String) : List String :=
  cwd ++ comps

/-- Environment of a `get_version` call: the build-time
`env!("CARGO_PKG_VERSION")` string, the result of `env::current_exe()`
(path components), the filesystem state, and oracles for the external
collaborators `fs::read_to_string` and the serde-json extraction of the
manifest's `version` field. -/
structure VersionEnv where
  cargoPkgVersion : String
  currentExe : Except String (List String)
  fs : List (List String)
  readPackageJson : Except String String
  parseVersionField : String → Except String String

/-- `get_version` (lines 86-109): return the embedded version when
non-empty; otherwise look for `<executable-directory>/../package.json`
(the `join` does not normalise `..`, so the component stays literal) and
read and parse it when present; otherwise fall back to `"0.0.0"`. -/
def getVersion (env : VersionEnv) : Except String String :=
  if !env.cargoPkgVersion.isEmpty then .ok env.cargoPkgVersion
  else
    match env.currentExe with
    | .error e => .error e
    | .ok exe =>
      match exe with
      | [] => .error "Failed to get executable directory"
      | e :: es =>
        let exeDir := (e :: es).dropLast
        let pkgPath := exeDir ++ ["..", "package.json"]
        if pathExists env.fs pkgPath then
          match env.readPackageJson with
          | .error _ => .error "Failed to read package.json"
          | .ok content =>
            match env.parseVersionField content with
            | .error _ => .error "Failed to parse package.json"
            | .ok v => .ok v
        else .ok "0.0.0"

/-- Result of `print_version`: what was printed and the returned value. -/
structure VersionResult where
  printed : List String
  outcome : Except String Unit
deriving Repr

/-- `print_version` (lines 80-84): print the resolved version, or
propagate the error. -/
def printVersion (env : VersionEnv) : VersionResult :=
  match getVersion env with
  | .error e => { printed := [], outcome := .error e }
  | .ok v => { printed := [v], outcome := .ok () }

/-! ## Helper lemmas -/

/-- `find?` returns the first element satisfying the predicate. -/
theorem find?_first {α : Type} (p : α → Bool) :
    ∀ (l : List α) (a : α), l.find? p = some a →
      ∃ l₁ l₂, l = l₁ ++ a :: l₂ ∧ p a = true ∧ ∀ x ∈ l₁, p x = false := by
  intro l
  induction l with
  | nil => intro a h; simp [List.find?] at h
  | cons b t ih =>
    intro a h
    cases hb : p b with
    | true =>
      rw [List.find?_cons_of_pos _ hb] at h
      cases h
      exact ⟨[], t, rfl, hb, by simp⟩
    | false =>
      rw [List.find?_cons_of_neg _ (by simp [hb])] at h
      obtain ⟨l₁, l₂, hl, hpa, hprev⟩ := ih a h
      refine ⟨b :: l₁, l₂, by rw [hl]; rfl, hpa, ?_⟩
      intro x hx
      cases hx with
      | head => exact hb
      | tail _ hx => exact hprev x hx

/-- `find?` is the head of the filtered list. -/
theorem find?_eq_head?_filter {α : Type} (p : α → Bool) :
    ∀ l : List α, l.find? p = (l.filter p).head? := by
  intro l
  induction l with
  | nil => rfl
  | cons b t ih =>
    cases hb : p b with
    | true => rw [List.find?_cons_of_pos _ hb, List.filter_cons_of_pos hb]; rfl
    | false =>
      rw [List.find?_cons_of_neg _ (by simp [hb]), List.filter_cons_of_neg (by simp [hb])]
      exact ih

/-- The ascend loop inspects exactly the non-root ancestors of the start
directory, nearest first, and returns the first carrying the marker. -/
theorem ascendRunAux_fst_eq (fs : List (List String)) :
    ∀ r : List String,
      (ascendRunAux fs r).1 =
        (ancestorsAux r).find? (fun a => !a.isEmpty && pathExists fs (a ++ markerRel)) := by
  intro r
  induction r with
  | nil => rfl
  | cons c rest ih =>
    have hne : (c :: rest).reverse.isEmpty = false := by
      simp [List.isEmpty_iff]
    simp only [ascendRunAux, ancestorsAux]
    cases hm : pathExists fs ((c :: rest).reverse ++ markerRel) with
    | true =>
      rw [List.find?_cons_of_pos]
      · simp
      · rw [hne, hm]; decide
    | false =>
      rw [List.find?_cons_of_neg]
      · simpa using ih
      · rw [hne, hm]; decide

/-- `ascendSearch` phrased as a first-match over the ancestors list. -/
theorem ascendSearch_eq_find? (fs : List (List String)) (d : List String) :
    ascendSearch fs d =
      (ancestors d).find? (fun a => !a.isEmpty && pathExists fs (a ++ markerRel)) := by
  unfold ascendSearch ascendRun ancestors
  exact ascendRunAux_fst_eq fs d.reverse

/-- The iteration count of the ascend loop is bounded by the length of the
reversed component list. -/
theorem ascendRunAux_steps_le (fs : List (List String)) :
    ∀ r : List String, (ascendRunAux fs r).2 ≤ r.length := by
  intro r
  induction r with
  | nil => exact Nat.le_refl 0
  | cons c rest ih =>
    simp only [ascendRunAux, List.length_cons]
    split
    · exact Nat.succ_le_succ (Nat.zero_le _)
    · exact Nat.succ_le_succ ih

/-- Whatever the child's status, `runChild` records the spawned command. -/
theorem runChild_spawned (env : ProcEnv) (cmd : SpawnedCmd) (msg : String) :
    (runChild env cmd msg).spawned = some cmd := by
  rcases henv : env.spawnStatus with _ | st
  · simp [runChild, henv]
  · rcases h : st == some 0 <;> simp [runChild, henv, h]

/-- Any path returned by `find_project_path` contains the target substring. -/
theorem findProjectPath_contains (entries : List WalkEntry) (target q : String)
    (h : findProjectPath entries target = some q) :
    strContains q (targetPath target) = true := by
  unfold findProjectPath at h
  cases hf : entries.find? (entryMatches target) with
  | none => rw [hf] at h; simp at h
  | some e =>
    rw [hf] at h
    obtain ⟨l₁, l₂, _, hpa, _⟩ := find?_first (entryMatches target) entries e hf
    have := hpa
    unfold entryMatches at this
    rcases Bool.and_eq_true_iff.mp this with ⟨_, hc⟩
    cases h
    exact hc

/-! ## Concrete fixtures -/

/-- Walk order (as `WalkDir` produces it, parents first) of a filesystem
holding a single project `foo` mounted at the root. -/
def c1Entries : List WalkEntry :=
  [{ path := "/", isDir := true },
   { path := "/foo", isDir := true },
   { path := "/foo/storage", isDir := true },
   { path := "/foo/storage/framework", isDir := true },
   { path := "/foo/storage/framework/core", isDir := true },
   { path := "/foo/storage/framework/core/buddy", isDir := true },
   { path := "/foo/storage/framework/core/buddy/x", isDir := true }]

/-- Walk entries with the `foo-bar` project listed before the `foo` one. -/
def c6Entries : List WalkEntry :=
  [{ path := "/a/foo-bar/storage/framework/core/buddy/x", isDir := true },
   { path := "/a/foo/storage/framework/core/buddy/x", isDir := true }]

/-! ## Claims -/

/-- C1, counterexample: `find_project_path` does return the first directory
entry whose path contains `foo/storage/framework/core/buddy/`, but that
entry is a directory inside the project's marker, not a directory under
which the marker `storage/framework/core/buddy` exists: on a filesystem
holding exactly the project `foo`, the returned path is
`/foo/storage/framework/core/buddy/x`, and no marker exists under it. -/
theorem buddy_c1_counterexample :
    findProjectPath c1Entries "foo" = some "/foo/storage/framework/core/buddy/x"
    ∧ markerUnder c1Entries "/foo/storage/framework/core/buddy/x" = false := by
  exact ⟨by decide, by decide⟩

/-- C1, amended: when `find_project_path` reports found, it returns the
path of the first directory entry (in walk order) whose full path contains
the substring `<target>/storage/framework/core/buddy/`; that path itself
contains the marker substring (it lies inside the project's marker
directory) but is not in general a directory under which the marker
exists. -/
theorem buddy_c1_amended (entries : List WalkEntry) (target p : String)
    (h : findProjectPath entries target = some p) :
    (∃ e l₁ l₂, entries = l₁ ++ e :: l₂ ∧ p = e.path ∧ entryMatches target e = true ∧
        ∀ x ∈ l₁, entryMatches target x = false)
    ∧ strContains p (targetPath target) = true := by
  constructor
  · unfold findProjectPath at h
    cases hf : entries.find? (entryMatches target) with
    | none => rw [hf] at h; simp at h
    | some e =>
      rw [hf] at h
      obtain ⟨l₁, l₂, hl, hpa, hprev⟩ := find?_first (entryMatches target) entries e hf
      cases h
      exact ⟨e, l₁, l₂, hl, rfl, hpa, hprev⟩
  · exact findProjectPath_contains entries target p h

/-- Witness for C1 at a one-entry walk. -/
theorem buddy_c1_witness :
    (∃ e l₁ l₂,
        [({ path := "/foo/storage/framework/core/buddy/x", isDir := true } : WalkEntry)] =
          l₁ ++ e :: l₂ ∧
        "/foo/storage/framework/core/buddy/x" = e.path ∧ entryMatches "foo" e = true ∧
        ∀ x ∈ l₁, entryMatches "foo" x = false)
    ∧ strContains "/foo/storage/framework/core/buddy/x" (targetPath "foo") = true :=
  buddy_c1_amended [{ path := "/foo/storage/framework/core/buddy/x", isDir := true }] "foo"
    "/foo/storage/framework/core/buddy/x" (by decide)

/-- C5, counterexample: when the marker sits directly under the filesystem
root `/` and the search starts at `/`, the root is the unique ancestor of
the start containing `storage/framework/core/buddy` (here the filter over
all ancestors keeps exactly the root), yet the ascend loop — whose guard
is `current_dir.as_os_str() != "/"` — never checks it and reports
not-found instead of returning that ancestor. -/
theorem buddy_c5_counterexample :
    (ancestors ([] : List String)).filter
        (fun x => pathExists [([] : List String), markerRel] (x ++ markerRel)) = [[]]
    ∧ ascendSearch [([] : List String), markerRel] [] = none := by
  exact ⟨by decide, by decide⟩

/-- C5, amended: the ascend loop checks the start directory and each of
its ancestors except the filesystem root `/`. When exactly one non-root
ancestor contains `storage/framework/core/buddy`, it returns that
ancestor; when no non-root ancestor contains it, it returns not-found. -/
theorem buddy_c5_amended (fs : List (List String)) (d : List String) :
    (∀ a, (ancestors d).filter (fun x => !x.isEmpty && pathExists fs (x ++ markerRel)) = [a] →
        ascendSearch fs d = some a)
    ∧ ((ancestors d).filter (fun x => !x.isEmpty && pathExists fs (x ++ markerRel)) = [] →
        ascendSearch fs d = none) := by
  constructor
  · intro a ha
    rw [ascendSearch_eq_find?, find?_eq_head?_filter, ha]
    rfl
  · intro ha
    rw [ascendSearch_eq_find?, find?_eq_head?_filter, ha]
    rfl

/-- Witness for C5: starting at `/a/b` with the marker under `/a`. -/
theorem buddy_c5_witness :
    ascendSearch [["a", "storage", "framework", "core", "buddy"]] ["a", "b"] = some ["a"] :=
  (buddy_c5_amended [["a", "storage", "framework", "core", "buddy"]] ["a", "b"]).1
    ["a"] (by decide)

/-- C6: searching for project `foo` on a walk containing both
`/a/foo-bar/storage/framework/core/buddy/x` (listed first) and
`/a/foo/storage/framework/core/buddy/x` returns the path under `foo`,
and no walk whatsoever can make the search return the `foo-bar` path:
`foo-bar/` does not contain the substring `foo/`, so the prefix-named
project never collides. -/
theorem buddy_c6 :
    findProjectPath c6Entries "foo" = some "/a/foo/storage/framework/core/buddy/x"
    ∧ ∀ (entries : List WalkEntry) (q : String), findProjectPath entries "foo" = some q →
        (q == "/a/foo-bar/storage/framework/core/buddy/x") = false := by
  constructor
  · decide
  · intro entries q h
    have hc := findProjectPath_contains entries "foo" q h
    by_cases hq : q = "/a/foo-bar/storage/framework/core/buddy/x"
    · subst hq
      exact absurd hc (by decide)
    · exact beq_eq_false_iff_ne.mpr hq

/-- Witness for C6 at a one-entry walk. -/
theorem buddy_c6_witness :
    (("/a/foo/storage/framework/core/buddy/x" : String) ==
      "/a/foo-bar/storage/framework/core/buddy/x") = false :=
  buddy_c6.2 [{ path := "/a/foo/storage/framework/core/buddy/x", isDir := true }]
    "/a/foo/storage/framework/core/buddy/x" (by decide)

/-- C8: the ascend loop of `create_new_project` always terminates (it is a
total function of the embedding), and the number of loop iterations it
performs is bounded by the directory depth (number of path components) of
the starting directory. -/
theorem buddy_c8 (fs : List (List String)) (d : List String) :
    ascendSteps fs d ≤ d.length := by
  have h := ascendRunAux_steps_le fs d.reverse
  rw [List.length_reverse] at h
  unfold ascendSteps ascendRun
  exact h

/-- Environment for the C2 counterexample: working directory `/a/b`, the
marker present under `/a`, no `buddy` executable anywhere under `/a/b`. -/
def c2Env : ProcEnv :=
  { cwd := ["a", "b"]
    fs := [["a", "storage", "framework", "core", "buddy"]]
    argv := []
    spawnStatus := some (some 0) }

/-- C2, counterexample: with no local proxy and the ascend search finding
`/a`, `create_new_project` spawns the literal relative path `./buddy`
(with `new` prefixed), which resolves against the current working
directory `/a/b` — not against the discovered ancestor: the resolved
program `/a/b/buddy` is not the discovered script
`/a/storage/framework/core/buddy`. -/
theorem buddy_c2_counterexample :
    (createNewProject c2Env "demo").spawned =
      some { program := "./buddy", args := ["new"] }
    ∧ ascendSearch c2Env.fs c2Env.cwd = some ["a"]
    ∧ (resolveRel c2Env.cwd ["buddy"] ==
        ["a", "storage", "framework", "core", "buddy"]) = false := by
  exact ⟨by decide, by decide, by decide⟩

/-- C2, amended: when no local proxy executable exists in the current
working directory but the ascend search finds an ancestor containing the
project marker, `create_new_project` spawns the fixed relative path
`./buddy` (resolved against the current working directory, not the
discovered ancestor) with a literal `new` argument prefixed before the
forwarded argument list. -/
theorem buddy_c2_amended (env : ProcEnv) (name : String) (d : List String)
    (h1 : pathExists env.fs (env.cwd ++ ["buddy"]) = false)
    (h2 : ascendSearch env.fs env.cwd = some d) :
    (createNewProject env name).spawned =
      some { program := "./buddy", args := "new" :: env.argv } := by
  simp [createNewProject, h1, h2, runChild_spawned]

/-- Witness for C2 at the concrete environment of the counterexample. -/
theorem buddy_c2_witness :
    (createNewProject c2Env "demo").spawned =
      some { program := "./buddy", args := "new" :: c2Env.argv } :=
  buddy_c2_amended c2Env "demo" ["a"] (by decide) (by decide)

/-- Environment for the C3 counterexample: local proxy present, the
spawned child terminated by a signal (no exit code available). -/
def c3Env : ProcEnv :=
  { cwd := ["a"], fs := [["a", "buddy"]], argv := ["x"], spawnStatus := some none }

/-- C3, counterexample: when the child is terminated by a signal, the
failure notice prints the Debug rendering `None` of the absent exit code,
not the word `unknown` as the claim states. -/
theorem buddy_c3_counterexample :
    (proxyCommand c3Env).printed = ["Command failed with exit code: None"]
    ∧ strContains "Command failed with exit code: None" "unknown" = false
    ∧ (proxyCommand c3Env).result = Except.ok true := by
  exact ⟨by decide, by decide, by rfl⟩

/-- C3, amended: whenever a spawned child terminates unsuccessfully
(non-zero exit or signal termination), the program prints the failure
notice `Command failed with exit code: ` followed by the Debug rendering
of the optional exit code (`Some(c)` for exit code `c`, `None` — not
`unknown` — when the child was terminated by a signal), and the child's
failure is not propagated: `create_new_project`'s shared child-running
step still returns success, and `proxy_command` still returns `Ok(true)`,
so the program's own exit status remains 0. -/
theorem buddy_c3_amended (env : ProcEnv) (st : Option Int) (cmd : SpawnedCmd) (msg : String)
    (hs : env.spawnStatus = some st) (hf : (st == some 0) = false) :
    ((runChild env cmd msg).printed = ["Command failed with exit code: " ++ statusDebug st]
      ∧ (runChild env cmd msg).outcome = Outcome.ok)
    ∧ (pathExists env.fs (env.cwd ++ ["buddy"]) = true →
        (proxyCommand env).printed = ["Command failed with exit code: " ++ statusDebug st]
        ∧ (proxyCommand env).result = Except.ok true) := by
  constructor
  · constructor <;> simp [runChild, hs, hf, failNotice]
  · intro hex
    constructor <;> simp [proxyCommand, hex, hs, hf, failNotice]

/-- Environment for the C3 witness: local proxy present, child exits 2. -/
def c3OkEnv : ProcEnv :=
  { cwd := ["a"], fs := [["a", "buddy"]], argv := [], spawnStatus := some (some 2) }

/-- Witness for C3: child exiting with code 2. -/
theorem buddy_c3_witness :
    (proxyCommand c3OkEnv).printed = ["Command failed with exit code: " ++ statusDebug (some 2)]
    ∧ (proxyCommand c3OkEnv).result = Except.ok true :=
  (buddy_c3_amended c3OkEnv (some 2) { program := "buddy", args := [] } "m"
    (by rfl) (by decide)).2 (by decide)

/-- C4: with no local proxy executable in the current working directory
and the ascend search finding no ancestor containing the marker,
`create_new_project` prints the no-project-found message
(`No stacks project found. Do you want to create a new stacks project?`),
spawns nothing, and terminates the process with exit status 1. -/
theorem buddy_c4 (env : ProcEnv) (name : String)
    (h1 : pathExists env.fs (env.cwd ++ ["buddy"]) = false)
    (h2 : ascendSearch env.fs env.cwd = none) :
    createNewProject env name =
      { printed := ["No stacks project found. Do you want to create a new stacks project?"]
        spawned := none
        outcome := Outcome.exited 1 } := by
  simp [createNewProject, h1, h2]

/-- Witness for C4: run from the filesystem root of an empty filesystem. -/
theorem buddy_c4_witness :
    createNewProject { cwd := [], fs := [], argv := [], spawnStatus := none } "demo" =
      { printed := ["No stacks project found. Do you want to create a new stacks project?"]
        spawned := none
        outcome := Outcome.exited 1 } :=
  buddy_c4 { cwd := [], fs := [], argv := [], spawnStatus := none } "demo"
    (by decide) (by decide)

/-- C7: if the local proxy `./buddy` does not exist in the current working
directory, `proxy_command` returns `Ok(false)` (not attempted), spawns no
child process and prints nothing. -/
theorem buddy_c7 (env : ProcEnv)
    (h : pathExists env.fs (env.cwd ++ ["buddy"]) = false) :
    proxyCommand env = { printed := [], spawned := none, result := Except.ok false } := by
  simp [proxyCommand, h]

/-- Witness for C7 on an empty filesystem. -/
theorem buddy_c7_witness :
    proxyCommand { cwd := [], fs := [], argv := [], spawnStatus := none } =
      { printed := [], spawned := none, result := Except.ok false } :=
  buddy_c7 { cwd := [], fs := [], argv := [], spawnStatus := none } (by decide)

/-- C9: when the build-time embedded version string is empty and no
manifest exists at `<executable-directory>/../package.json`, `print_version`
prints exactly the literal `0.0.0` (and succeeds). -/
theorem buddy_c9 (env : VersionEnv) (e : String) (es : List String)
    (h0 : env.cargoPkgVersion = "")
    (h1 : env.currentExe = .ok (e :: es))
    (h2 : pathExists env.fs ((e :: es).dropLast ++ ["..", "package.json"]) = false) :
    printVersion env = { printed := ["0.0.0"], outcome := .ok () } := by
  simp [printVersion, getVersion, h0, h1, h2]
  rfl

/-- Environment for the C9 witness: empty embedded version, executable at
`/usr/bin/buddy`, empty filesystem (so no manifest), failing oracles. -/
def c9Env : VersionEnv :=
  { cargoPkgVersion := ""
    currentExe := .ok ["usr", "bin", "buddy"]
    fs := []
    readPackageJson := .error "absent"
    parseVersionField := fun _ => .error "absent" }

/-- Witness for C9. -/
theorem buddy_c9_witness :
    printVersion c9Env = { printed := ["0.0.0"], outcome := .ok () } :=
  buddy_c9 c9Env "usr" ["bin", "buddy"] (by rfl) (by rfl) (by rfl)

/-- C10: `create_new_project` binds its `name` argument but never reads it
(the source names it `_name`), so for any two names and a fixed
environment the call performs the same filesystem checks, spawns the same
command, prints the same output and produces the same exit outcome. -/
theorem buddy_c10 (env : ProcEnv) (n₁ n₂ : String) :
    createNewProject env n₁ = createNewProject env n₂ := rfl
